import Mathlib

/-
Verification of the MCP Google Sheets HTTP gateway
(src/mcp_google_sheets/api/http_server.py).

The gateway is a thin REST facade: each endpoint authenticates an API key,
checks that the process-wide backend context is initialized, invokes exactly
one backend operation and wraps the result in a two-field JSON envelope.
This file embeds the key-store loader, the authenticator and the endpoint
handlers as pure Lean functions, instrumented with an explicit trace of
backend calls so that properties such as "no backend call occurs" are
statable.
-/

namespace MCPSheets

/-- JSON values, the payload type flowing through the gateway.  Numbers are
modelled as integers; none of the gateway code inspects numeric values, it
only passes them through. -/
inductive Json where
  | null : Json
  | bool (b : Bool) : Json
  | num (n : Int) : Json
  | str (s : String) : Json
  | arr (elements : List Json) : Json
  | obj (fields : List (String × Json)) : Json

/-- An HTTPException as raised by the gateway: a status code and a detail
message (FastAPI `HTTPException(status_code=..., detail=...)`). -/
structure HTTPError where
  statusCode : Nat
  detail : String
deriving DecidableEq, Repr

/-- The opaque process-wide backend handle (`SpreadsheetContext` in the
source).  The gateway never inspects it, it only checks its presence. -/
structure SpreadsheetContext where

/-- The API key store: the module-level `API_KEYS` dict, client id mapped to
secret key.  Python dicts preserve insertion order, so a list of pairs. -/
abbrev KeyMap := List (String × String)

/-- Python truthiness test `not x` for an optional string: true when the
value is absent (None) or the empty string. -/
def pyFalsy : Option String → Bool
  | none => true
  | some s => s = ""

/-- The linear scan of `verify_api_key` (http_server.py lines 142-146):
`for cid, key in API_KEYS.items(): if key == api_key: client_id = cid; break`.
Returns the first client id whose secret equals the presented key. -/
def firstMatch (keys : KeyMap) (apiKey : String) : Option String :=
  match keys with
  | [] => none
  | (cid, key) :: rest => if key = apiKey then some cid else firstMatch rest apiKey

/-- `verify_api_key` (http_server.py lines 133-154).  The presented header
value is `none` when the `X-API-Key` header is absent (APIKeyHeader with
`auto_error=False` yields None) and `some v` when present with value `v`.
`if not api_key` is Python falsiness, so an empty present value is treated
like an absent one; likewise `if not client_id` treats an empty matched
client id as no match. -/
def verify_api_key (api_key : Option String) (API_KEYS : KeyMap) :
    Except HTTPError String :=
  if pyFalsy api_key then
    .error ⟨401, "API Key required"⟩
  else
    match firstMatch API_KEYS (api_key.getD "") with
    | none => .error ⟨401, "Invalid API Key"⟩
    | some client_id =>
        if client_id = "" then .error ⟨401, "Invalid API Key"⟩
        else .ok client_id

/-- The default key mapping written by `load_api_keys` when the key file is
missing (http_server.py lines 119-122). -/
def default_keys : KeyMap :=
  [("default", "sk-default-key-change-this"),
   ("example_client", "sk-example-key-12345")]

/-- State of the API keys file on disk: absent, present but not valid JSON,
or present and parsing to a mapping. -/
inductive FileState where
  | missing : FileState
  | unparseable : FileState
  | parsed (m : KeyMap) : FileState
deriving DecidableEq, Repr

/-- `load_api_keys` (http_server.py lines 106-130).  Input: the state of the
key file and whether a write to it would succeed.  Output: the resulting
in-memory `API_KEYS` mapping and the resulting file state.
If the file exists and parses, the mapping is the file contents; if it
exists but fails to parse, the error is logged and the mapping is empty;
if it is missing, the two-entry default mapping is written to the file and
used (and if even that write fails, the mapping is empty). -/
def load_api_keys : FileState → Bool → KeyMap × FileState
  | .parsed m, _ => (m, .parsed m)
  | .unparseable, _ => ([], .unparseable)
  | .missing, true => (default_keys, .parsed default_keys)
  | .missing, false => ([], .missing)

/-- One invocation of a backend (MCP server) operation, recorded with the
exact arguments the endpoint passes through. -/
inductive BackendCall where
  | getSheetData (spreadsheet_id sheet : String) (range_ : Option String)
      (include_grid_data : Bool) : BackendCall
  | getSheetFormulas (spreadsheet_id sheet : String) (range_ : Option String) : BackendCall
  | updateCells (spreadsheet_id sheet range_ : String) (data : List (List Json)) : BackendCall
  | createSpreadsheet (title : String) : BackendCall
  | listSpreadsheets : BackendCall
  | listSheets (spreadsheet_id : String) : BackendCall

/-- Behaviour of the backend (the MCP tool functions imported from
`..server`): each operation either returns a JSON-compatible result or
raises an exception carrying a message string (its `str(e)` form). -/
structure Backend where
  get_sheet_data : String → String → Option String → Bool → Except String Json
  get_sheet_formulas : String → String → Option String → Except String Json
  update_cells : String → String → String → List (List Json) → Except String Json
  create_spreadsheet : String → Except String Json
  list_spreadsheets : Except String Json
  list_sheets : String → Except String Json

/-- `GetSheetDataRequest` (http_server.py lines 37-41): required string
fields `spreadsheet_id` and `sheet`, optional `range` defaulting to None,
optional `include_grid_data` defaulting to False. -/
structure GetSheetDataRequest where
  spreadsheet_id : String
  sheet : String
  range : Option String
  include_grid_data : Bool

/-- `GetSheetFormulasRequest` (http_server.py lines 44-47). -/
structure GetSheetFormulasRequest where
  spreadsheet_id : String
  sheet : String
  range : Option String

/-- `UpdateCellsRequest` (http_server.py lines 50-54): all four fields are
required, `data` is a 2-D array of values. -/
structure UpdateCellsRequest where
  spreadsheet_id : String
  sheet : String
  range : String
  data : List (List Json)

/-- `CreateSpreadsheetRequest` (http_server.py lines 69-70). -/
structure CreateSpreadsheetRequest where
  title : String

/-- Result of one endpoint handler: the HTTP response (success JSON body or
HTTPException), paired with the trace of backend calls made. -/
abbrev EndpointResult := Except HTTPError Json × List BackendCall

/-- Endpoint body of `POST /tools/get_sheet_data` (http_server.py lines
206-229), after FastAPI has resolved the security dependency into
`client_id` and validated the body into `request`.  If the context is
absent, 503; otherwise call the backend once; on success wrap as
`{client_id, data}`; on any exception, 400 with the exception text. -/
def get_sheet_data (request : GetSheetDataRequest) (client_id : String)
    (spreadsheet_context : Option SpreadsheetContext) (backend : Backend) :
    EndpointResult :=
  match spreadsheet_context with
  | none => (.error ⟨503, "Service not initialized"⟩, [])
  | some _ =>
    let call := BackendCall.getSheetData request.spreadsheet_id request.sheet
      request.range request.include_grid_data
    match backend.get_sheet_data request.spreadsheet_id request.sheet
        request.range request.include_grid_data with
    | .ok result =>
        (.ok (.obj [("client_id", .str client_id), ("data", result)]), [call])
    | .error e => (.error ⟨400, e⟩, [call])

/-- Endpoint body of `POST /tools/get_sheet_formulas` (http_server.py lines
232-253); success envelope field is `formulas`. -/
def get_sheet_formulas (request : GetSheetFormulasRequest) (client_id : String)
    (spreadsheet_context : Option SpreadsheetContext) (backend : Backend) :
    EndpointResult :=
  match spreadsheet_context with
  | none => (.error ⟨503, "Service not initialized"⟩, [])
  | some _ =>
    let call := BackendCall.getSheetFormulas request.spreadsheet_id request.sheet
      request.range
    match backend.get_sheet_formulas request.spreadsheet_id request.sheet
        request.range with
    | .ok result =>
        (.ok (.obj [("client_id", .str client_id), ("formulas", result)]), [call])
    | .error e => (.error ⟨400, e⟩, [call])

/-- Endpoint body of `POST /tools/update_cells` (http_server.py lines
256-278); success envelope field is `result`. -/
def update_cells (request : UpdateCellsRequest) (client_id : String)
    (spreadsheet_context : Option SpreadsheetContext) (backend : Backend) :
    EndpointResult :=
  match spreadsheet_context with
  | none => (.error ⟨503, "Service not initialized"⟩, [])
  | some _ =>
    let call := BackendCall.updateCells request.spreadsheet_id request.sheet
      request.range request.data
    match backend.update_cells request.spreadsheet_id request.sheet
        request.range request.data with
    | .ok result =>
        (.ok (.obj [("client_id", .str client_id), ("result", result)]), [call])
    | .error e => (.error ⟨400, e⟩, [call])

/-- Endpoint body of `POST /tools/create_spreadsheet` (http_server.py lines
329-348); success envelope field is `spreadsheet`. -/
def create_spreadsheet (request : CreateSpreadsheetRequest) (client_id : String)
    (spreadsheet_context : Option SpreadsheetContext) (backend : Backend) :
    EndpointResult :=
  match spreadsheet_context with
  | none => (.error ⟨503, "Service not initialized"⟩, [])
  | some _ =>
    let call := BackendCall.createSpreadsheet request.title
    match backend.create_spreadsheet request.title with
    | .ok result =>
        (.ok (.obj [("client_id", .str client_id), ("spreadsheet", result)]), [call])
    | .error e => (.error ⟨400, e⟩, [call])

/-- Endpoint body of `GET /tools/list_spreadsheets` (http_server.py lines
374-389); success envelope field is `spreadsheets`. -/
def list_spreadsheets (client_id : String)
    (spreadsheet_context : Option SpreadsheetContext) (backend : Backend) :
    EndpointResult :=
  match spreadsheet_context with
  | none => (.error ⟨503, "Service not initialized"⟩, [])
  | some _ =>
    match backend.list_spreadsheets with
    | .ok result =>
        (.ok (.obj [("client_id", .str client_id), ("spreadsheets", result)]),
         [BackendCall.listSpreadsheets])
    | .error e => (.error ⟨400, e⟩, [BackendCall.listSpreadsheets])

/-- Endpoint body of `GET /tools/list_sheets/\x7bspreadsheet_id\x7d`
(http_server.py lines 392-411); the spreadsheet id is a path parameter;
success envelope field is `sheets`. -/
def list_sheets (spreadsheet_id : String) (client_id : String)
    (spreadsheet_context : Option SpreadsheetContext) (backend : Backend) :
    EndpointResult :=
  match spreadsheet_context with
  | none => (.error ⟨503, "Service not initialized"⟩, [])
  | some _ =>
    match backend.list_sheets spreadsheet_id with
    | .ok result =>
        (.ok (.obj [("client_id", .str client_id), ("sheets", result)]),
         [BackendCall.listSheets spreadsheet_id])
    | .error e => (.error ⟨400, e⟩, [BackendCall.listSheets spreadsheet_id])

/-- First binding of a field name in a JSON object, mirroring how a JSON
body decodes to at most one value per key. -/
def lookupField (fields : List (String × Json)) (name : String) : Option Json :=
  match fields with
  | [] => none
  | (k, v) :: rest => if k = name then some v else lookupField rest name

/-- Modelled from the spec: the validation layer (pydantic, not part of this
repository) checking a required string field declared `Field(...)`.
A missing field or a non-string value is a structural error naming the
field. -/
def requireStr (fields : List (String × Json)) (name : String) :
    Except String String :=
  match lookupField fields name with
  | none => .error (name ++ ": Field required")
  | some (.str s) => .ok s
  | some _ => .error (name ++ ": Input should be a valid string")

/-- Modelled from the spec: validation of an optional string field declared
`Optional[str] = Field(None, ...)`; absent or null yields None. -/
def optionalStr (fields : List (String × Json)) (name : String) :
    Except String (Option String) :=
  match lookupField fields name with
  | none => .ok none
  | some .null => .ok none
  | some (.str s) => .ok (some s)
  | some _ => .error (name ++ ": Input should be a valid string")

/-- Modelled from the spec: validation of an optional boolean field with a
declared default. -/
def optionalBool (fields : List (String × Json)) (name : String)
    (deflt : Bool) : Except String Bool :=
  match lookupField fields name with
  | none => .ok deflt
  | some (.bool b) => .ok b
  | some _ => .error (name ++ ": Input should be a valid boolean")

/-- Modelled from the spec: validation of a required `List[List[Any]]`
field (the 2-D value grid); the value and each of its rows must be lists. -/
def requireGrid (fields : List (String × Json)) (name : String) :
    Except String (List (List Json)) :=
  match lookupField fields name with
  | none => .error (name ++ ": Field required")
  | some (.arr rows) =>
      rows.mapM fun row =>
        match row with
        | .arr cells => .ok cells
        | _ => .error (name ++ ": Input should be a valid list")
  | some _ => .error (name ++ ": Input should be a valid list")

/-- Modelled from the spec: deserialization of a request body against the
declared shape of `GetSheetDataRequest`. -/
def parseGetSheetDataRequest (body : Json) : Except String GetSheetDataRequest :=
  match body with
  | .obj fields => do
      let sid ← requireStr fields "spreadsheet_id"
      let sheet ← requireStr fields "sheet"
      let rng ← optionalStr fields "range"
      let igd ← optionalBool fields "include_grid_data" false
      .ok ⟨sid, sheet, rng, igd⟩
  | _ => .error "body: Input should be a valid dictionary"

/-- Modelled from the spec: deserialization of a request body against the
declared shape of `GetSheetFormulasRequest`. -/
def parseGetSheetFormulasRequest (body : Json) :
    Except String GetSheetFormulasRequest :=
  match body with
  | .obj fields => do
      let sid ← requireStr fields "spreadsheet_id"
      let sheet ← requireStr fields "sheet"
      let rng ← optionalStr fields "range"
      .ok ⟨sid, sheet, rng⟩
  | _ => .error "body: Input should be a valid dictionary"

/-- Modelled from the spec: deserialization of a request body against the
declared shape of `UpdateCellsRequest`; all four fields are required and
`data` must be a list of lists. -/
def parseUpdateCellsRequest (body : Json) : Except String UpdateCellsRequest :=
  match body with
  | .obj fields => do
      let sid ← requireStr fields "spreadsheet_id"
      let sheet ← requireStr fields "sheet"
      let rng ← requireStr fields "range"
      let grid ← requireGrid fields "data"
      .ok ⟨sid, sheet, rng, grid⟩
  | _ => .error "body: Input should be a valid dictionary"

/-- Modelled from the spec: deserialization of a request body against the
declared shape of `CreateSpreadsheetRequest`. -/
def parseCreateSpreadsheetRequest (body : Json) :
    Except String CreateSpreadsheetRequest :=
  match body with
  | .obj fields => do
      let title ← requireStr fields "title"
      .ok ⟨title⟩
  | _ => .error "body: Input should be a valid dictionary"

/-- Modelled from the spec: the framework dispatch for a protected POST
endpoint.  The security dependency `Depends(verify_api_key)` is resolved
first; its failure short-circuits the request.  The body is then validated
against the declared request shape; a validation failure is rendered as a
client error (HTTP 422 in FastAPI, the BadRequest equivalent of the spec)
whose detail is the structural error, and the endpoint body never runs.
Only then does the endpoint body execute. -/
def get_sheet_data_endpoint (api_key : Option String) (API_KEYS : KeyMap)
    (body : Json) (spreadsheet_context : Option SpreadsheetContext)
    (backend : Backend) : EndpointResult :=
  match verify_api_key api_key API_KEYS with
  | .error e => (.error e, [])
  | .ok client_id =>
    match parseGetSheetDataRequest body with
    | .error msg => (.error ⟨422, msg⟩, [])
    | .ok request => get_sheet_data request client_id spreadsheet_context backend

/-- Modelled from the spec: framework dispatch for
`POST /tools/get_sheet_formulas`, as for `get_sheet_data_endpoint`. -/
def get_sheet_formulas_endpoint (api_key : Option String) (API_KEYS : KeyMap)
    (body : Json) (spreadsheet_context : Option SpreadsheetContext)
    (backend : Backend) : EndpointResult :=
  match verify_api_key api_key API_KEYS with
  | .error e => (.error e, [])
  | .ok client_id =>
    match parseGetSheetFormulasRequest body with
    | .error msg => (.error ⟨422, msg⟩, [])
    | .ok request => get_sheet_formulas request client_id spreadsheet_context backend

/-- Modelled from the spec: framework dispatch for
`POST /tools/update_cells`, as for `get_sheet_data_endpoint`. -/
def update_cells_endpoint (api_key : Option String) (API_KEYS : KeyMap)
    (body : Json) (spreadsheet_context : Option SpreadsheetContext)
    (backend : Backend) : EndpointResult :=
  match verify_api_key api_key API_KEYS with
  | .error e => (.error e, [])
  | .ok client_id =>
    match parseUpdateCellsRequest body with
    | .error msg => (.error ⟨422, msg⟩, [])
    | .ok request => update_cells request client_id spreadsheet_context backend

/-- Modelled from the spec: framework dispatch for
`POST /tools/create_spreadsheet`, as for `get_sheet_data_endpoint`. -/
def create_spreadsheet_endpoint (api_key : Option String) (API_KEYS : KeyMap)
    (body : Json) (spreadsheet_context : Option SpreadsheetContext)
    (backend : Backend) : EndpointResult :=
  match verify_api_key api_key API_KEYS with
  | .error e => (.error e, [])
  | .ok client_id =>
    match parseCreateSpreadsheetRequest body with
    | .error msg => (.error ⟨422, msg⟩, [])
    | .ok request => create_spreadsheet request client_id spreadsheet_context backend

/-- Modelled from the spec: framework dispatch for
`GET /tools/list_spreadsheets` (no body to validate). -/
def list_spreadsheets_endpoint (api_key : Option String) (API_KEYS : KeyMap)
    (spreadsheet_context : Option SpreadsheetContext) (backend : Backend) :
    EndpointResult :=
  match verify_api_key api_key API_KEYS with
  | .error e => (.error e, [])
  | .ok client_id => list_spreadsheets client_id spreadsheet_context backend

/-- Modelled from the spec: framework dispatch for
`GET /tools/list_sheets` (spreadsheet id from the path, no body). -/
def list_sheets_endpoint (api_key : Option String) (API_KEYS : KeyMap)
    (spreadsheet_id : String) (spreadsheet_context : Option SpreadsheetContext)
    (backend : Backend) : EndpointResult :=
  match verify_api_key api_key API_KEYS with
  | .error e => (.error e, [])
  | .ok client_id => list_sheets spreadsheet_id client_id spreadsheet_context backend

/-- The process-wide mutable state of the gateway: the loaded key store and
the optional backend context.  Endpoint handlers only read this state. -/
structure ServerState where
  API_KEYS : KeyMap
  spreadsheet_context : Option SpreadsheetContext

/-- One `GET /tools/list_sheets` request processed against the server
state.  The handler body (http_server.py lines 392-411) assigns to no
module-level variable, so the state is returned unchanged. -/
def run_list_sheets (s : ServerState) (api_key : Option String)
    (spreadsheet_id : String) (backend : Backend) :
    EndpointResult × ServerState :=
  (list_sheets_endpoint api_key s.API_KEYS spreadsheet_id
    s.spreadsheet_context backend, s)

/-- A stub backend whose operations all succeed; `update_cells` echoes the
grid it was given, re-assembled as a JSON array of arrays. -/
def stubOkBackend : Backend :=
  ⟨fun _ _ _ _ => .ok (.str "data-result"),
   fun _ _ _ => .ok (.str "formulas-result"),
   fun _ _ _ grid => .ok (.arr (grid.map Json.arr)),
   fun title => .ok (.str title),
   .ok (.arr []),
   fun sid => .ok (.arr [.str sid])⟩

/-- A stub backend whose operations all raise, with a distinct message per
operation. -/
def stubFailBackend : Backend :=
  ⟨fun _ _ _ _ => .error "boom-data",
   fun _ _ _ => .error "boom-formulas",
   fun _ _ _ _ => .error "boom-update",
   fun _ => .error "boom-create",
   .error "boom-list-spreadsheets",
   fun _ => .error "boom-list-sheets"⟩

/-- Status code of an endpoint response, when it is an error. -/
def statusOf {α : Type} : Except HTTPError α → Option Nat
  | .error e => some e.statusCode
  | .ok _ => none

/-- If no stored secret equals the presented key, the scan finds nothing. -/
theorem firstMatch_eq_none (keys : KeyMap) (k : String)
    (H : ∀ p ∈ keys, p.2 ≠ k) : firstMatch keys k = none := by
  induction keys with
  | nil => rfl
  | cons p rest ih =>
    obtain ⟨cid, key⟩ := p
    simp only [firstMatch]
    rw [if_neg (H (cid, key) (List.mem_cons_self _ _))]
    exact ih fun q hq => H q (List.mem_cons_of_mem _ hq)

/-- Whatever the scan returns is an entry of the store with the presented
key as its secret. -/
theorem firstMatch_mem (keys : KeyMap) (k c : String)
    (h : firstMatch keys k = some c) : (c, k) ∈ keys := by
  induction keys with
  | nil => cases h
  | cons p rest ih =>
    obtain ⟨cid, key⟩ := p
    by_cases hk : key = k
    · simp only [firstMatch, if_pos hk] at h
      obtain rfl : cid = c := Option.some.inj h
      rw [hk]
      exact List.mem_cons_self _ _
    · simp only [firstMatch, if_neg hk] at h
      exact List.mem_cons_of_mem _ (ih h)

/-- If the client id `c` owns the key `k` and every entry whose secret is
`k` belongs to `c`, the scan returns `c`. -/
theorem firstMatch_unique_owner (keys : KeyMap) (k c : String)
    (hmem : (c, k) ∈ keys)
    (huniq : ∀ p ∈ keys, p.2 = k → p.1 = c) : firstMatch keys k = some c := by
  induction keys with
  | nil => cases hmem
  | cons p rest ih =>
    obtain ⟨cid, key⟩ := p
    by_cases hk : key = k
    · simp only [firstMatch, if_pos hk]
      exact congrArg some (huniq (cid, key) (List.mem_cons_self _ _) hk)
    · simp only [firstMatch, if_neg hk]
      rcases List.mem_cons.mp hmem with heq | hmem'
      · exact absurd (congrArg Prod.snd heq).symm hk
      · exact ih hmem' fun q hq => huniq q (List.mem_cons_of_mem _ hq)

/-- The scan stops at the first entry whose secret equals the presented
key: entries after it, duplicates included, are never reached. -/
theorem firstMatch_append (pre post : KeyMap) (k c : String)
    (H : ∀ p ∈ pre, p.2 ≠ k) :
    firstMatch (pre ++ (c, k) :: post) k = some c := by
  induction pre with
  | nil => simp [firstMatch]
  | cons p rest ih =>
    obtain ⟨cid, key⟩ := p
    simp only [List.cons_append, firstMatch]
    rw [if_neg (H (cid, key) (List.mem_cons_self _ _))]
    exact ih fun q hq => H q (List.mem_cons_of_mem _ hq)

/-- A request whose header is absent or matches no stored secret is
rejected by the authenticator with status 401. -/
theorem verify_api_key_401 (api_key : Option String) (keys : KeyMap)
    (H : ∀ p ∈ keys, api_key ≠ some p.2) :
    ∃ d, verify_api_key api_key keys = .error ⟨401, d⟩ := by
  cases api_key with
  | none => exact ⟨"API Key required", rfl⟩
  | some k =>
    by_cases hk : k = ""
    · subst hk
      exact ⟨"API Key required", rfl⟩
    · refine ⟨"Invalid API Key", ?_⟩
      have hnone : firstMatch keys k = none :=
        firstMatch_eq_none keys k fun p hp hq =>
          H p hp (by rw [hq])
      simp only [verify_api_key, pyFalsy]
      rw [if_neg (by simpa using hk)]
      simp [hnone]

/-- C1 counterexample: with the key store holding the single entry
`alice : secret-1`, a request whose `X-API-Key` header is present but
empty is in the claim's "present but matching no stored secret" case, so
the claim demands the 401 detail `Invalid API Key`; the code's Python
falsiness test `if not api_key` fires first and produces the 401 detail
`API Key required` instead. -/
theorem c1_counterexample :
    verify_api_key (some "") [("alice", "secret-1")]
      = .error ⟨401, "API Key required"⟩
    ∧ verify_api_key (some "") [("alice", "secret-1")]
      ≠ .error ⟨401, "Invalid API Key"⟩ := by
  refine ⟨rfl, fun h => ?_⟩
  have h1 : (HTTPError.mk 401 "API Key required") = ⟨401, "Invalid API Key"⟩ :=
    Except.error.inj h
  exact absurd (congrArg HTTPError.detail h1) (by decide)

/-- C1 (amended): an absent or empty `X-API-Key` header fails 401 with
`API Key required`; a nonempty header matching no stored secret fails 401
with `Invalid API Key`; a nonempty header that equals a stored secret whose
owner is nonempty and unique succeeds with that owner as `client_id`. -/
theorem c1_auth_contract (API_KEYS : KeyMap) (k c : String) :
    (verify_api_key none API_KEYS = .error ⟨401, "API Key required"⟩)
    ∧ (verify_api_key (some "") API_KEYS = .error ⟨401, "API Key required"⟩)
    ∧ (k ≠ "" → (∀ p ∈ API_KEYS, p.2 ≠ k) →
        verify_api_key (some k) API_KEYS = .error ⟨401, "Invalid API Key"⟩)
    ∧ (k ≠ "" → c ≠ "" → (c, k) ∈ API_KEYS →
        (∀ p ∈ API_KEYS, p.2 = k → p.1 = c) →
        verify_api_key (some k) API_KEYS = .ok c) := by
  refine ⟨rfl, rfl, ?_, ?_⟩
  · intro hk hall
    have hm := firstMatch_eq_none API_KEYS k hall
    simp [verify_api_key, pyFalsy, hk, hm]
  · intro hk hc hmem huniq
    have hm := firstMatch_unique_owner API_KEYS k c hmem huniq
    simp [verify_api_key, pyFalsy, hk, hm, hc]

/-- C1 witness: a stored key authenticates as its owner, and an unknown
nonempty key is rejected as invalid. -/
theorem c1_witness :
    verify_api_key (some "secret-1") [("alice", "secret-1")] = .ok "alice"
    ∧ verify_api_key (some "absent-key") [("alice", "secret-1")]
        = .error ⟨401, "Invalid API Key"⟩ :=
  ⟨(c1_auth_contract [("alice", "secret-1")] "secret-1" "alice").2.2.2
      (by decide) (by decide) (by decide) (by decide),
   (c1_auth_contract [("alice", "secret-1")] "absent-key" "x").2.2.1
      (by decide) (by decide)⟩

/-- C8 counterexample: two distinct client ids, the empty string and
`bob`, share the secret `shared-key`; the empty id is iterated first.  The
claim says the request is attributed to the first id, i.e. succeeds as the
empty client; the code matches the empty id, then the falsiness test
`if not client_id` rejects the request with `Invalid API Key`. -/
theorem c8_counterexample :
    verify_api_key (some "shared-key") [("", "shared-key"), ("bob", "shared-key")]
      = .error ⟨401, "Invalid API Key"⟩
    ∧ verify_api_key (some "shared-key") [("", "shared-key"), ("bob", "shared-key")]
      ≠ .ok "" :=
  ⟨rfl, by intro h; cases h⟩

/-- C8 (amended): secrets are compared by exact string equality and the
scan stops at the first entry whose secret equals the presented key, so
with duplicated secrets the first client id in entry order wins — provided
the presented key and that first matching client id are nonempty
(otherwise the falsiness tests reject the request). -/
theorem c8_first_match_wins (pre post : KeyMap) (c k : String)
    (hk : k ≠ "") (hc : c ≠ "") (H : ∀ p ∈ pre, p.2 ≠ k) :
    verify_api_key (some k) (pre ++ (c, k) :: post) = .ok c := by
  have hm := firstMatch_append pre post k c H
  simp [verify_api_key, pyFalsy, hk, hm, hc]

/-- C8 witness: `bob` and `carol` share the secret `shared`; the request is
attributed to `bob`, who comes first in entry order. -/
theorem c8_witness :
    verify_api_key (some "shared")
      [("alice", "other"), ("bob", "shared"), ("carol", "shared")] = .ok "bob" :=
  c8_first_match_wins [("alice", "other")] [("carol", "shared")] "bob" "shared"
    (by decide) (by decide) (by decide)

/-- C10: when every entry owning the presented (nonempty) secret has the
empty string as client id, the scan matches the empty id and the falsiness
test `if not client_id` rejects the request 401 `Invalid API Key` instead
of succeeding. -/
theorem c10_empty_client_id (API_KEYS : KeyMap) (k : String)
    (hk : k ≠ "") (hmem : ("", k) ∈ API_KEYS)
    (hall : ∀ p ∈ API_KEYS, p.2 = k → p.1 = "") :
    verify_api_key (some k) API_KEYS = .error ⟨401, "Invalid API Key"⟩ := by
  have hm := firstMatch_unique_owner API_KEYS k "" hmem hall
  simp [verify_api_key, pyFalsy, hk, hm]

/-- C10 witness: a store whose only entry maps the empty client id to
`sk-orphan` rejects a request presenting `sk-orphan`. -/
theorem c10_witness :
    verify_api_key (some "sk-orphan") [("", "sk-orphan")]
      = .error ⟨401, "Invalid API Key"⟩ :=
  c10_empty_client_id [("", "sk-orphan")] "sk-orphan"
    (by decide) (by decide) (by decide)

/-- C4: while the process-wide context handle is absent, every modelled
protected endpoint fails 503 `Service not initialized` and the backend
call trace is empty, for every authenticated client and every request. -/
theorem c4_service_unavailable (client_id : String) (backend : Backend)
    (reqA : GetSheetDataRequest) (reqB : GetSheetFormulasRequest)
    (reqC : UpdateCellsRequest) (reqD : CreateSpreadsheetRequest)
    (spreadsheet_id : String) :
    get_sheet_data reqA client_id none backend
      = (.error ⟨503, "Service not initialized"⟩, [])
    ∧ get_sheet_formulas reqB client_id none backend
      = (.error ⟨503, "Service not initialized"⟩, [])
    ∧ update_cells reqC client_id none backend
      = (.error ⟨503, "Service not initialized"⟩, [])
    ∧ create_spreadsheet reqD client_id none backend
      = (.error ⟨503, "Service not initialized"⟩, [])
    ∧ list_spreadsheets client_id none backend
      = (.error ⟨503, "Service not initialized"⟩, [])
    ∧ list_sheets spreadsheet_id client_id none backend
      = (.error ⟨503, "Service not initialized"⟩, []) :=
  ⟨rfl, rfl, rfl, rfl, rfl, rfl⟩

/-- C3: when the invoked backend operation raises, whatever the message,
the endpoint fails 400 with the exception text verbatim as detail, and the
backend was called exactly once (no retry). -/
theorem c3_backend_error_to_400 (c : SpreadsheetContext)
    (client_id msg : String) (backend : Backend)
    (reqA : GetSheetDataRequest) (reqB : GetSheetFormulasRequest)
    (reqC : UpdateCellsRequest) (reqD : CreateSpreadsheetRequest)
    (spreadsheet_id : String) :
    (backend.get_sheet_data reqA.spreadsheet_id reqA.sheet reqA.range
        reqA.include_grid_data = .error msg →
      get_sheet_data reqA client_id (some c) backend
        = (.error ⟨400, msg⟩, [.getSheetData reqA.spreadsheet_id reqA.sheet
            reqA.range reqA.include_grid_data]))
    ∧ (backend.get_sheet_formulas reqB.spreadsheet_id reqB.sheet reqB.range
        = .error msg →
      get_sheet_formulas reqB client_id (some c) backend
        = (.error ⟨400, msg⟩, [.getSheetFormulas reqB.spreadsheet_id reqB.sheet
            reqB.range]))
    ∧ (backend.update_cells reqC.spreadsheet_id reqC.sheet reqC.range reqC.data
        = .error msg →
      update_cells reqC client_id (some c) backend
        = (.error ⟨400, msg⟩, [.updateCells reqC.spreadsheet_id reqC.sheet
            reqC.range reqC.data]))
    ∧ (backend.create_spreadsheet reqD.title = .error msg →
      create_spreadsheet reqD client_id (some c) backend
        = (.error ⟨400, msg⟩, [.createSpreadsheet reqD.title]))
    ∧ (backend.list_spreadsheets = .error msg →
      list_spreadsheets client_id (some c) backend
        = (.error ⟨400, msg⟩, [.listSpreadsheets]))
    ∧ (backend.list_sheets spreadsheet_id = .error msg →
      list_sheets spreadsheet_id client_id (some c) backend
        = (.error ⟨400, msg⟩, [.listSheets spreadsheet_id])) := by
  refine ⟨?_, ?_, ?_, ?_, ?_, ?_⟩ <;> intro h <;>
    simp [get_sheet_data, get_sheet_formulas, update_cells, create_spreadsheet,
      list_spreadsheets, list_sheets, h]

/-- C3 witness: against a stub backend whose every operation raises, each
endpoint returns 400 carrying that operation's message, after exactly one
call. -/
theorem c3_witness :
    get_sheet_data ⟨"sid", "Sheet1", none, false⟩ "alice" (some ⟨⟩) stubFailBackend
      = (.error ⟨400, "boom-data"⟩, [.getSheetData "sid" "Sheet1" none false])
    ∧ get_sheet_formulas ⟨"sid", "Sheet1", none⟩ "alice" (some ⟨⟩) stubFailBackend
      = (.error ⟨400, "boom-formulas"⟩, [.getSheetFormulas "sid" "Sheet1" none])
    ∧ update_cells ⟨"sid", "Sheet1", "A1:B2", []⟩ "alice" (some ⟨⟩) stubFailBackend
      = (.error ⟨400, "boom-update"⟩, [.updateCells "sid" "Sheet1" "A1:B2" []])
    ∧ create_spreadsheet ⟨"T"⟩ "alice" (some ⟨⟩) stubFailBackend
      = (.error ⟨400, "boom-create"⟩, [.createSpreadsheet "T"])
    ∧ list_spreadsheets "alice" (some ⟨⟩) stubFailBackend
      = (.error ⟨400, "boom-list-spreadsheets"⟩, [.listSpreadsheets])
    ∧ list_sheets "sid" "alice" (some ⟨⟩) stubFailBackend
      = (.error ⟨400, "boom-list-sheets"⟩, [.listSheets "sid"]) :=
  ⟨(c3_backend_error_to_400 ⟨⟩ "alice" "boom-data" stubFailBackend
      ⟨"sid", "Sheet1", none, false⟩ ⟨"sid", "Sheet1", none⟩
      ⟨"sid", "Sheet1", "A1:B2", []⟩ ⟨"T"⟩ "sid").1 rfl,
   (c3_backend_error_to_400 ⟨⟩ "alice" "boom-formulas" stubFailBackend
      ⟨"sid", "Sheet1", none, false⟩ ⟨"sid", "Sheet1", none⟩
      ⟨"sid", "Sheet1", "A1:B2", []⟩ ⟨"T"⟩ "sid").2.1 rfl,
   (c3_backend_error_to_400 ⟨⟩ "alice" "boom-update" stubFailBackend
      ⟨"sid", "Sheet1", none, false⟩ ⟨"sid", "Sheet1", none⟩
      ⟨"sid", "Sheet1", "A1:B2", []⟩ ⟨"T"⟩ "sid").2.2.1 rfl,
   (c3_backend_error_to_400 ⟨⟩ "alice" "boom-create" stubFailBackend
      ⟨"sid", "Sheet1", none, false⟩ ⟨"sid", "Sheet1", none⟩
      ⟨"sid", "Sheet1", "A1:B2", []⟩ ⟨"T"⟩ "sid").2.2.2.1 rfl,
   (c3_backend_error_to_400 ⟨⟩ "alice" "boom-list-spreadsheets" stubFailBackend
      ⟨"sid", "Sheet1", none, false⟩ ⟨"sid", "Sheet1", none⟩
      ⟨"sid", "Sheet1", "A1:B2", []⟩ ⟨"T"⟩ "sid").2.2.2.2.1 rfl,
   (c3_backend_error_to_400 ⟨⟩ "alice" "boom-list-sheets" stubFailBackend
      ⟨"sid", "Sheet1", none, false⟩ ⟨"sid", "Sheet1", none⟩
      ⟨"sid", "Sheet1", "A1:B2", []⟩ ⟨"T"⟩ "sid").2.2.2.2.2 rfl⟩

/-- C6: on backend success each endpoint returns the envelope with exactly
two fields, `client_id` (the authenticated client) and the endpoint's
result field (`data`, `formulas`, `result`, `spreadsheet`, `spreadsheets`,
`sheets`), holding the backend result unmodified, after exactly one
backend call. -/
theorem c6_envelope (c : SpreadsheetContext) (client_id : String)
    (backend : Backend) (v : Json)
    (reqA : GetSheetDataRequest) (reqB : GetSheetFormulasRequest)
    (reqC : UpdateCellsRequest) (reqD : CreateSpreadsheetRequest)
    (spreadsheet_id : String) :
    (backend.get_sheet_data reqA.spreadsheet_id reqA.sheet reqA.range
        reqA.include_grid_data = .ok v →
      get_sheet_data reqA client_id (some c) backend
        = (.ok (.obj [("client_id", .str client_id), ("data", v)]),
           [.getSheetData reqA.spreadsheet_id reqA.sheet reqA.range
             reqA.include_grid_data]))
    ∧ (backend.get_sheet_formulas reqB.spreadsheet_id reqB.sheet reqB.range
        = .ok v →
      get_sheet_formulas reqB client_id (some c) backend
        = (.ok (.obj [("client_id", .str client_id), ("formulas", v)]),
           [.getSheetFormulas reqB.spreadsheet_id reqB.sheet reqB.range]))
    ∧ (backend.update_cells reqC.spreadsheet_id reqC.sheet reqC.range reqC.data
        = .ok v →
      update_cells reqC client_id (some c) backend
        = (.ok (.obj [("client_id", .str client_id), ("result", v)]),
           [.updateCells reqC.spreadsheet_id reqC.sheet reqC.range reqC.data]))
    ∧ (backend.create_spreadsheet reqD.title = .ok v →
      create_spreadsheet reqD client_id (some c) backend
        = (.ok (.obj [("client_id", .str client_id), ("spreadsheet", v)]),
           [.createSpreadsheet reqD.title]))
    ∧ (backend.list_spreadsheets = .ok v →
      list_spreadsheets client_id (some c) backend
        = (.ok (.obj [("client_id", .str client_id), ("spreadsheets", v)]),
           [.listSpreadsheets]))
    ∧ (backend.list_sheets spreadsheet_id = .ok v →
      list_sheets spreadsheet_id client_id (some c) backend
        = (.ok (.obj [("client_id", .str client_id), ("sheets", v)]),
           [.listSheets spreadsheet_id])) := by
  refine ⟨?_, ?_, ?_, ?_, ?_, ?_⟩ <;> intro h <;>
    simp [get_sheet_data, get_sheet_formulas, update_cells, create_spreadsheet,
      list_spreadsheets, list_sheets, h]

/-- C6 witness: against the echoing stub backend, `update_cells` with the
2x2 grid 1,2 / 3,4 returns the grid echoed by the backend verbatim inside
the two-field envelope, and the other endpoints wrap their stub results in
their own result fields. -/
theorem c6_witness :
    update_cells ⟨"sid", "Sheet1", "A1:B2",
        [[.num 1, .num 2], [.num 3, .num 4]]⟩ "alice" (some ⟨⟩) stubOkBackend
      = (.ok (.obj [("client_id", .str "alice"),
          ("result", .arr [.arr [.num 1, .num 2], .arr [.num 3, .num 4]])]),
         [.updateCells "sid" "Sheet1" "A1:B2" [[.num 1, .num 2], [.num 3, .num 4]]])
    ∧ get_sheet_data ⟨"sid", "Sheet1", none, false⟩ "alice" (some ⟨⟩) stubOkBackend
      = (.ok (.obj [("client_id", .str "alice"), ("data", .str "data-result")]),
         [.getSheetData "sid" "Sheet1" none false])
    ∧ list_sheets "sid" "alice" (some ⟨⟩) stubOkBackend
      = (.ok (.obj [("client_id", .str "alice"), ("sheets", .arr [.str "sid"])]),
         [.listSheets "sid"]) :=
  ⟨(c6_envelope ⟨⟩ "alice" stubOkBackend
      (.arr [.arr [.num 1, .num 2], .arr [.num 3, .num 4]])
      ⟨"sid", "Sheet1", none, false⟩ ⟨"sid", "Sheet1", none⟩
      ⟨"sid", "Sheet1", "A1:B2", [[.num 1, .num 2], [.num 3, .num 4]]⟩
      ⟨"T"⟩ "sid").2.2.1 rfl,
   (c6_envelope ⟨⟩ "alice" stubOkBackend (.str "data-result")
      ⟨"sid", "Sheet1", none, false⟩ ⟨"sid", "Sheet1", none⟩
      ⟨"sid", "Sheet1", "A1:B2", [[.num 1, .num 2], [.num 3, .num 4]]⟩
      ⟨"T"⟩ "sid").1 rfl,
   (c6_envelope ⟨⟩ "alice" stubOkBackend (.arr [.str "sid"])
      ⟨"sid", "Sheet1", none, false⟩ ⟨"sid", "Sheet1", none⟩
      ⟨"sid", "Sheet1", "A1:B2", [[.num 1, .num 2], [.num 3, .num 4]]⟩
      ⟨"T"⟩ "sid").2.2.2.2.2 rfl⟩

/-- C7: a missing key file makes `load_api_keys` write and use the default
two-entry mapping, whose entry names are exactly `default` and
`example_client`; an unparseable file yields the empty mapping, under
which every authentication attempt fails 401; a parsing file yields
exactly its contents. -/
theorem c7_load_api_keys (m : KeyMap) (w : Bool) (h : Option String) :
    load_api_keys .missing true = (default_keys, .parsed default_keys)
    ∧ default_keys.map Prod.fst = ["default", "example_client"]
    ∧ load_api_keys .unparseable w = ([], .unparseable)
    ∧ (verify_api_key h [] = .error ⟨401, "API Key required"⟩
       ∨ verify_api_key h [] = .error ⟨401, "Invalid API Key"⟩)
    ∧ load_api_keys (.parsed m) w = (m, .parsed m) := by
  refine ⟨rfl, by decide, ?_, ?_, ?_⟩
  · cases w <;> rfl
  · cases h with
    | none => exact .inl rfl
    | some s =>
      by_cases hs : s = ""
      · subst hs
        exact .inl rfl
      · right
        simp [verify_api_key, pyFalsy, hs, firstMatch]
  · cases w <;> rfl

/-- C9: `list_sheets` is idempotent and deterministic: processing the same
request twice in a row against a fixed key store, context and backend
yields identical responses, and the server state is left unchanged. -/
theorem c9_idempotent (s : ServerState) (api_key : Option String)
    (spreadsheet_id : String) (backend : Backend) :
    (run_list_sheets (run_list_sheets s api_key spreadsheet_id backend).2
        api_key spreadsheet_id backend).1
      = (run_list_sheets s api_key spreadsheet_id backend).1
    ∧ (run_list_sheets (run_list_sheets s api_key spreadsheet_id backend).2
        api_key spreadsheet_id backend).2 = s :=
  ⟨rfl, rfl⟩

/-- C5: a request whose header is absent or equals no stored secret is
rejected by every modelled protected endpoint with status 401, and the
backend call trace is empty: authentication failure short-circuits before
any backend call. -/
theorem c5_no_backend_without_auth (API_KEYS : KeyMap) (api_key : Option String)
    (bodyA bodyB bodyC bodyD : Json) (spreadsheet_id : String)
    (ctx : Option SpreadsheetContext) (backend : Backend)
    (H : ∀ p ∈ API_KEYS, api_key ≠ some p.2) :
    (statusOf (get_sheet_data_endpoint api_key API_KEYS bodyA ctx backend).1 = some 401
      ∧ (get_sheet_data_endpoint api_key API_KEYS bodyA ctx backend).2 = [])
    ∧ (statusOf (get_sheet_formulas_endpoint api_key API_KEYS bodyB ctx backend).1 = some 401
      ∧ (get_sheet_formulas_endpoint api_key API_KEYS bodyB ctx backend).2 = [])
    ∧ (statusOf (update_cells_endpoint api_key API_KEYS bodyC ctx backend).1 = some 401
      ∧ (update_cells_endpoint api_key API_KEYS bodyC ctx backend).2 = [])
    ∧ (statusOf (create_spreadsheet_endpoint api_key API_KEYS bodyD ctx backend).1 = some 401
      ∧ (create_spreadsheet_endpoint api_key API_KEYS bodyD ctx backend).2 = [])
    ∧ (statusOf (list_spreadsheets_endpoint api_key API_KEYS ctx backend).1 = some 401
      ∧ (list_spreadsheets_endpoint api_key API_KEYS ctx backend).2 = [])
    ∧ (statusOf (list_sheets_endpoint api_key API_KEYS spreadsheet_id ctx backend).1 = some 401
      ∧ (list_sheets_endpoint api_key API_KEYS spreadsheet_id ctx backend).2 = []) := by
  obtain ⟨d, hd⟩ := verify_api_key_401 api_key API_KEYS H
  refine ⟨⟨?_, ?_⟩, ⟨?_, ?_⟩, ⟨?_, ?_⟩, ⟨?_, ?_⟩, ⟨?_, ?_⟩, ⟨?_, ?_⟩⟩ <;>
    simp [get_sheet_data_endpoint, get_sheet_formulas_endpoint,
      update_cells_endpoint, create_spreadsheet_endpoint,
      list_spreadsheets_endpoint, list_sheets_endpoint, hd, statusOf]

/-- C5 witness: with the store holding only `alice : k1`, a request with
no header is rejected 401 by each endpoint with an empty backend trace. -/
theorem c5_witness :
    (statusOf (get_sheet_data_endpoint none [("alice", "k1")] .null none stubOkBackend).1 = some 401
      ∧ (get_sheet_data_endpoint none [("alice", "k1")] .null none stubOkBackend).2 = [])
    ∧ (statusOf (get_sheet_formulas_endpoint none [("alice", "k1")] .null none stubOkBackend).1 = some 401
      ∧ (get_sheet_formulas_endpoint none [("alice", "k1")] .null none stubOkBackend).2 = [])
    ∧ (statusOf (update_cells_endpoint none [("alice", "k1")] .null none stubOkBackend).1 = some 401
      ∧ (update_cells_endpoint none [("alice", "k1")] .null none stubOkBackend).2 = [])
    ∧ (statusOf (create_spreadsheet_endpoint none [("alice", "k1")] .null none stubOkBackend).1 = some 401
      ∧ (create_spreadsheet_endpoint none [("alice", "k1")] .null none stubOkBackend).2 = [])
    ∧ (statusOf (list_spreadsheets_endpoint none [("alice", "k1")] none stubOkBackend).1 = some 401
      ∧ (list_spreadsheets_endpoint none [("alice", "k1")] none stubOkBackend).2 = [])
    ∧ (statusOf (list_sheets_endpoint none [("alice", "k1")] "sid" none stubOkBackend).1 = some 401
      ∧ (list_sheets_endpoint none [("alice", "k1")] "sid" none stubOkBackend).2 = []) :=
  c5_no_backend_without_auth [("alice", "k1")] none .null .null .null .null
    "sid" none stubOkBackend (by decide)

/-- C2: under a valid API key, a request body failing validation against
the declared shape of `UpdateCellsRequest` makes the endpoint fail with
the client-error status 422 (the BadRequest equivalent FastAPI uses for
validation failures) whose detail is the structural error verbatim, with
an empty backend call trace; a body missing the required `range` field and
a body whose `data` field is not a list of lists produce structural errors
naming the offending field. -/
theorem c2_validation (API_KEYS : KeyMap) (api_key : Option String)
    (client_id msg : String) (body : Json)
    (ctx : Option SpreadsheetContext) (backend : Backend) :
    (verify_api_key api_key API_KEYS = .ok client_id →
      parseUpdateCellsRequest body = .error msg →
      update_cells_endpoint api_key API_KEYS body ctx backend
        = (.error ⟨422, msg⟩, []))
    ∧ parseUpdateCellsRequest (.obj [("spreadsheet_id", .str "sid"),
        ("sheet", .str "Sheet1"), ("data", .arr [])])
      = .error "range: Field required"
    ∧ parseUpdateCellsRequest (.obj [("spreadsheet_id", .str "sid"),
        ("sheet", .str "Sheet1"), ("range", .str "A1:B2"),
        ("data", .str "nope")])
      = .error "data: Input should be a valid list" := by
  refine ⟨?_, rfl, rfl⟩
  intro hv hp
  simp [update_cells_endpoint, hv, hp]

/-- C2 witness: authenticated as `alice`, an `update_cells` body missing
the required `range` field fails 422 naming the field, and no backend
call occurs. -/
theorem c2_witness :
    update_cells_endpoint (some "k1") [("alice", "k1")]
      (.obj [("spreadsheet_id", .str "sid"), ("sheet", .str "Sheet1"),
        ("data", .arr [])]) none stubOkBackend
      = (.error ⟨422, "range: Field required"⟩, []) :=
  (c2_validation [("alice", "k1")] (some "k1") "alice" "range: Field required"
    (.obj [("spreadsheet_id", .str "sid"), ("sheet", .str "Sheet1"),
      ("data", .arr [])]) none stubOkBackend).1 rfl rfl

end MCPSheets
